import Mathlib

/-!
Verification of the ScreenGuide repository's core behaviors.

This file gives a shallow embedding, in Lean, of the parts of the
TypeScript sources that the specification's testable properties talk
about, and proves (or refutes) each property against that embedding:

* the instruction processor (`processInstructions` in the
  InstructionProcessor component),
* the AI vision service (`analyzeScreen`, `analyzeWithOpenAI`,
  `simulateAIAnalysis`, `startContinuousAnalysis`,
  `stopContinuousAnalysis`, `isAnalysisRunning` in
  src/services/aiVisionService.ts),
* the task viewer's step operations (TaskViewer.tsx),
* the floating guide popup's state machine (AIGuidePopup.tsx).

JavaScript strings are modelled by Lean `String` (a list of
characters), JavaScript numbers by `ℚ` (every number manipulated by
the modelled code is an exact small decimal, so rational arithmetic is
a faithful model of the double arithmetic actually performed), and
each `Math.random()` result is passed in as an explicit rational
parameter.
-/

set_option maxRecDepth 8192

/-! ## JavaScript string primitives -/

/-- The set of characters trimmed by JavaScript `String.prototype.trim`:
the ECMAScript WhiteSpace and LineTerminator code points. -/
def jsWhitespace (c : Char) : Bool :=
  c = ' ' || c = '\t' || c = '\n' || c = '\r' ||
  c = '\x0b' || c = '\x0c' || c = '\u00a0' || c = '\ufeff' ||
  c = '\u1680' || ('\u2000' ≤ c && c ≤ '\u200a') ||
  c = '\u2028' || c = '\u2029' || c = '\u202f' || c = '\u205f' || c = '\u3000'

/-- JavaScript `s.trim()`: drop whitespace from both ends of the string. -/
def jsTrim (s : String) : String :=
  String.mk ((s.data.dropWhile jsWhitespace).rdropWhile jsWhitespace)

/-- A match of the separator regex `/\n|\.|\d+\./` at the head of `cs`:
`some n` when one of the three alternatives matches the first `n`
characters (`n > 0`), `none` otherwise.  The `\d+\.` alternative
matches a maximal digit run followed by a period; regex backtracking
to a shorter digit run can never succeed when the maximal run fails,
because the character after a shorter run is still a digit, never a
period. -/
def sepMatch (cs : List Char) : Option { n : Nat // 0 < n } :=
  match cs with
  | [] => none
  | c :: rest =>
    if c = '\n' then some ⟨1, Nat.one_pos⟩
    else if c = '.' then some ⟨1, Nat.one_pos⟩
    else if c.isDigit then
      match (c :: rest).drop ((c :: rest).takeWhile Char.isDigit).length with
      | '.' :: _ => some ⟨((c :: rest).takeWhile Char.isDigit).length + 1, Nat.succ_pos _⟩
      | _ => none
    else none

/-- Scanner for JavaScript `s.split(/\n|\.|\d+\./)`: walk the character
list, emitting the fragment accumulated in `acc` whenever the
separator regex matches, exactly as the ECMAScript SplitMatcher scans
left to right (leading, inner and trailing empty fragments included).
Recursion is structural on a fuel argument so that the function
reduces inside the kernel; every separator match consumes at least one
character, so with `fuel = cs.length` the fuel-exhaustion branch is
unreachable. -/
def splitAux : Nat → List Char → List Char → List String
  | _, [], acc => [String.mk acc.reverse]
  | 0, cs, acc => [String.mk (acc.reverse ++ cs)]
  | fuel + 1, c :: rest, acc =>
    match sepMatch (c :: rest) with
    | some n => String.mk acc.reverse :: splitAux fuel ((c :: rest).drop n.val) []
    | none => splitAux fuel rest (c :: acc)

/-- JavaScript `rawInstructions.split(/\n|\.|\d+\./)`. -/
def splitRx (s : String) : List String := splitAux s.data.length s.data []

/-! ## The instruction processor (InstructionProcessor component)

```js
const steps = rawInstructions
  .split(/\n|\.|\d+\./)
  .filter(step => step.trim().length > 10)
  .map((step, index) => ({
    id: index + 1,
    text: step.trim(),
    completed: false,
    current: index === 0
  }))
  .slice(0, 8); // Limit to 8 steps for demo
```
-/

/-- One processed step record of the instruction processor. -/
structure Instruction where
  id : Nat
  text : String
  completed : Bool
  current : Bool
deriving DecidableEq, Repr

/-- The `.map((step, index) => ...)` stage, carrying the running index. -/
def mkInstructions (i : Nat) (l : List String) : List Instruction :=
  match l with
  | [] => []
  | s :: rest =>
    { id := i + 1, text := jsTrim s, completed := false, current := i == 0 }
      :: mkInstructions (i + 1) rest

/-- The instruction processor's parsing pipeline: split, filter the
fragments whose trimmed length exceeds 10, build the step records,
keep the first 8. -/
def processInstructions (raw : String) : List Instruction :=
  (mkInstructions 0 ((splitRx raw).filter (fun s => 10 < (jsTrim s).length))).take 8

/-! ### Facts about `jsTrim` -/

theorem dropWhile_rdropWhile_of_fix {α : Type} (p : α → Bool) (l : List α)
    (hl : List.dropWhile p l = l) :
    List.dropWhile p (List.rdropWhile p l) = List.rdropWhile p l := by
  obtain ⟨t, ht⟩ := List.rdropWhile_prefix p l
  cases hr : List.rdropWhile p l with
  | nil => simp
  | cons a s =>
    rw [hr] at ht
    have ha : p a = false := by
      by_contra hpa
      have hpa' : p a = true := by revert hpa; cases p a <;> simp
      rw [← ht, List.cons_append] at hl
      rw [List.dropWhile_cons_of_pos hpa'] at hl
      have hle : (List.dropWhile p (s ++ t)).length ≤ (s ++ t).length :=
        (List.dropWhile_suffix p).length_le
      rw [hl] at hle
      simp only [List.length_cons] at hle
      omega
    rw [List.dropWhile_cons_of_neg (by simp [ha])]

theorem jsTrim_idem (s : String) : jsTrim (jsTrim s) = jsTrim s := by
  show String.mk ((((s.data.dropWhile jsWhitespace).rdropWhile
      jsWhitespace).dropWhile jsWhitespace).rdropWhile jsWhitespace) = _
  rw [dropWhile_rdropWhile_of_fix jsWhitespace _ (List.dropWhile_idempotent _ _),
    List.rdropWhile_idempotent]
  rfl

/-! ### Structural facts about `mkInstructions` -/

theorem mkInstructions_text (l : List String) :
    ∀ (i : Nat) (x : Instruction), x ∈ mkInstructions i l → ∃ s ∈ l, x.text = jsTrim s := by
  induction l with
  | nil =>
    intro i x hx
    simp [mkInstructions] at hx
  | cons s rest ih =>
    intro i x hx
    simp only [mkInstructions, List.mem_cons] at hx
    rcases hx with hx | hx
    · exact ⟨s, List.mem_cons_self s rest, by rw [hx]⟩
    · obtain ⟨u, hu, hxu⟩ := ih (i + 1) x hx
      exact ⟨u, List.mem_cons_of_mem _ hu, hxu⟩

theorem mkInstructions_current_false (l : List String) :
    ∀ (i : Nat), i ≠ 0 → ∀ x ∈ mkInstructions i l, x.current = false := by
  induction l with
  | nil =>
    intro i hi x hx
    simp [mkInstructions] at hx
  | cons s rest ih =>
    intro i hi x hx
    simp only [mkInstructions, List.mem_cons] at hx
    rcases hx with hx | hx
    · rw [hx]
      show (i == 0) = false
      simpa using hi
    · exact ih (i + 1) (Nat.succ_ne_zero i) x hx

/-- Claim C1 (amended): for every raw instruction text the processor
yields at most 8 step records, every record's text has trimmed length
at least 10 (indeed at least 11, the filter being strict), and — when
the resulting list is nonempty — exactly one record is marked current,
namely the first.  (An input in which no fragment survives the length
filter yields the empty list, with no current step at all.) -/
theorem processInstructions_amended_spec (raw : String) :
    (processInstructions raw).length ≤ 8
    ∧ (∀ x ∈ processInstructions raw, 10 ≤ (jsTrim x.text).length)
    ∧ (processInstructions raw ≠ [] →
        (processInstructions raw).head?.map (fun x => x.current) = some true
        ∧ (processInstructions raw).countP (fun x => x.current) = 1) := by
  refine ⟨List.length_take_le 8 _, ?_, ?_⟩
  · intro x hx
    have hx' : x ∈ mkInstructions 0
        ((splitRx raw).filter (fun s => 10 < (jsTrim s).length)) :=
      List.take_subset 8 _ hx
    obtain ⟨s, hs, hxs⟩ := mkInstructions_text _ 0 x hx'
    have h10 : 10 < (jsTrim s).length := by
      have hdec := (List.mem_filter.mp hs).2
      exact of_decide_eq_true hdec
    rw [hxs, jsTrim_idem]
    omega
  · intro h
    cases hfl : (splitRx raw).filter (fun s => 10 < (jsTrim s).length) with
    | nil =>
      exact absurd (by simp [processInstructions, hfl, mkInstructions]) h
    | cons s rest =>
      have hpi : processInstructions raw =
          { id := 1, text := jsTrim s, completed := false, current := true }
            :: (mkInstructions 1 rest).take 7 := by
        simp [processInstructions, hfl, mkInstructions, List.take_succ_cons]
      have hz : ((mkInstructions 1 rest).take 7).countP (fun x => x.current) = 0 := by
        rw [List.countP_eq_zero]
        intro a ha
        have hc := mkInstructions_current_false rest 1 (by omega) a
          (List.take_subset 7 _ ha)
        simp [hc]
      rw [hpi]
      refine ⟨rfl, ?_⟩
      rw [List.countP_cons, hz]
      rfl

/-- Claim C1 counterexample: the empty raw text produces the empty step
list, which contains no current step, refuting "any input, even one
producing no fragments, still yields exactly one current step". -/
theorem processInstructions_empty_no_current :
    processInstructions "" = []
    ∧ (processInstructions "").countP (fun x => x.current) ≠ 1 := by
  decide

/-- Claim C1 witness: concrete instantiation of the amended theorem on
an input whose single fragment survives the filter. -/
theorem processInstructions_amended_witness :
    (processInstructions "Open the settings application now").length ≤ 8
    ∧ 10 ≤ (jsTrim (({ id := 1, text := "Open the settings application now",
                       completed := false, current := true } : Instruction)).text).length
    ∧ (processInstructions "Open the settings application now").head?.map
        (fun x => x.current) = some true
    ∧ (processInstructions "Open the settings application now").countP
        (fun x => x.current) = 1 :=
  ⟨(processInstructions_amended_spec "Open the settings application now").1,
   (processInstructions_amended_spec "Open the settings application now").2.1 _ (by decide),
   ((processInstructions_amended_spec "Open the settings application now").2.2 (by decide)).1,
   ((processInstructions_amended_spec "Open the settings application now").2.2 (by decide)).2⟩

/-- Claim C7: on the raw text `"1. Open Chrome\n2. Go to gmail.com\n3.
Click Sign In"` the processor produces exactly 3 steps, in order, with
the first (and only the first) marked current.  The second step's text
is `"Go to gmail"`: the separator regex also fires on the period
inside `gmail.com`, and the short fragment `"com"` is discarded by the
length filter. -/
theorem processInstructions_scenario :
    processInstructions "1. Open Chrome\n2. Go to gmail.com\n3. Click Sign In" =
      [{ id := 1, text := "Open Chrome", completed := false, current := true },
       { id := 2, text := "Go to gmail", completed := false, current := false },
       { id := 3, text := "Click Sign In", completed := false, current := false }] := by
  decide

/-! ## The AI vision service (src/services/aiVisionService.ts)

The service is a class holding two mutable fields, `isAnalyzing` and
`analysisInterval`.  Network interaction and `Math.random()` draws are
external inputs; they enter the model as explicit parameters
(`RemoteEnv`, `SimRands`).  JavaScript exceptions are modelled by
`Except JsError`.
-/

/-- The `status` field of a `ScreenAnalysis`. -/
inductive AnalysisStatus where
  | onTrack
  | offTrack
  | completed
  | error
deriving DecidableEq

/-- The `type` field of a `VisualCue`. -/
inductive CueType where
  | arrow
  | highlight
  | circle
  | tooltip
deriving DecidableEq

/-- A JavaScript number: a finite value (exact rationals — every
finite number the modelled code produces is an exact small decimal),
the two infinities, or `NaN`. -/
inductive JsNum where
  | num (q : ℚ)
  | posInf
  | negInf
  | nan
deriving DecidableEq

/-- `Math.min` on two JavaScript numbers: `NaN` if either argument is
`NaN`, otherwise the smaller value with the infinities at the ends. -/
def jsMin (a b : JsNum) : JsNum :=
  match a, b with
  | JsNum.nan, _ => JsNum.nan
  | _, JsNum.nan => JsNum.nan
  | JsNum.negInf, _ => JsNum.negInf
  | _, JsNum.negInf => JsNum.negInf
  | JsNum.posInf, x => x
  | x, JsNum.posInf => x
  | JsNum.num p, JsNum.num q => JsNum.num (min p q)

/-- `Math.max` on two JavaScript numbers: `NaN` if either argument is
`NaN`, otherwise the larger value with the infinities at the ends. -/
def jsMax (a b : JsNum) : JsNum :=
  match a, b with
  | JsNum.nan, _ => JsNum.nan
  | _, JsNum.nan => JsNum.nan
  | JsNum.posInf, _ => JsNum.posInf
  | _, JsNum.posInf => JsNum.posInf
  | JsNum.negInf, x => x
  | x, JsNum.negInf => x
  | JsNum.num p, JsNum.num q => JsNum.num (max p q)

/-- `JsNum.inRange v lo hi`: the value is an actual number lying in
`[lo, hi]`.  `NaN` and the infinities are in no range. -/
def JsNum.inRange : JsNum → ℚ → ℚ → Prop
  | JsNum.num q, lo, hi => lo ≤ q ∧ q ≤ hi
  | _, _, _ => False

/-- A JSON value found in a numeric slot of the parsed reply
(`result.confidence`, `cue.x`, `cue.y`), observed exactly the way the
code observes it: the `||` default tests its truthiness and
`Math.min`/`Math.max` apply the ToNumber coercion.  Examples: a JSON
number `q` is `⟨q ≠ 0, num q⟩` (`NaN` itself cannot appear in JSON);
the string `"very high"` is `⟨true, nan⟩`; `"3.5"` is
`⟨true, num 3.5⟩`; `"0"` is `⟨true, num 0⟩`; `""` is
`⟨false, num 0⟩`; `"Infinity"` is `⟨true, posInf⟩`; `true` is
`⟨true, num 1⟩`; `false` and `null` are `⟨false, num 0⟩`; objects
and arrays are truthy with their usual ToPrimitive coercion. -/
structure JsonNumSlot where
  truthy : Bool
  toNumber : JsNum
deriving DecidableEq

/-- A positioned overlay marker (interface `VisualCue`).  The remote
path can place `NaN` in `x`/`y` (see `clampCue`), so they carry full
JavaScript numbers. -/
structure VisualCue where
  type : CueType
  x : JsNum
  y : JsNum
  width : Option ℚ
  height : Option ℚ
  text : Option String
  color : Option String
deriving DecidableEq

/-- The result of one analysis call (interface `ScreenAnalysis`).  The
remote path can place `NaN` in `confidence`, so it carries a full
JavaScript number. -/
structure ScreenAnalysis where
  currentStep : Nat
  confidence : JsNum
  suggestions : List String
  visualCues : List VisualCue
  status : AnalysisStatus
  message : String
deriving DecidableEq

/-- JavaScript `v || d` for a parsed numeric slot: an absent field
(`undefined`) or a falsy value yields the numeric default `d`; a
truthy value is kept and later coerced by `Math.min`/`Math.max`, so
only its ToNumber observation matters. -/
def jsNumOr (v : Option JsonNumSlot) (d : ℚ) : JsNum :=
  match v with
  | none => JsNum.num d
  | some j => if j.truthy then j.toNumber else JsNum.num d

/-- JavaScript `v || d` for a string field: `undefined` (here `none`)
and the empty string are falsy. -/
def jsStrOr (v : Option String) (d : String) : String :=
  match v with
  | none => d
  | some s => if s = "" then d else s

/-- One entry of the parsed `result.visualCues` array, before clamping.
`none` models an absent (or, for `type`, falsy) field.  The examined
numeric slots `x` and `y` hold arbitrary JSON values via their
truthiness/ToNumber observation; `width` and `height` are copied
through unexamined by the code and no claim concerns them, so they
keep the numeric type the prompt requests. -/
structure RawCue where
  type : Option CueType
  x : Option JsonNumSlot
  y : Option JsonNumSlot
  width : Option ℚ
  height : Option ℚ
  text : Option String
  color : Option String
deriving DecidableEq

/-- The object produced by `JSON.parse` of the model's reply, as far as
`analyzeWithOpenAI` examines it.  `none` models a falsy field
(`result.status`, `result.message`) or a non-array (`result.suggestions`,
`result.visualCues`). -/
structure RawResult where
  status : Option AnalysisStatus
  message : Option String
  confidence : Option JsonNumSlot
  suggestions : Option (List String)
  visualCues : Option (List RawCue)
deriving DecidableEq

/-- The JavaScript errors thrown by the service. -/
inductive JsError where
  | analysisInProgress
  | requestFailed
  | noContent
  | invalidStructure
  | referenceErr
deriving DecidableEq

/-- The externally determined outcome of the chat-completion request
made by `analyzeWithOpenAI`:  the request itself may throw, the reply
may carry no content, `JSON.parse` of the content may throw a
`SyntaxError`, or parsing succeeds with some `RawResult`. -/
inductive RemoteEnv where
  | requestFailed
  | noContent
  | parseFailure
  | parsed (r : RawResult)
deriving DecidableEq

/-- The per-cue clamping performed on the parsed `visualCues` array:

```js
type: cue.type || 'arrow',
x: Math.max(0, Math.min(1920, cue.x || 100)),
y: Math.max(0, Math.min(1080, cue.y || 100)),
width: cue.width, height: cue.height, text: cue.text,
color: cue.color || '#10B981'
``` -/
def clampCue (cue : RawCue) : VisualCue :=
  { type := cue.type.getD CueType.arrow
  , x := jsMax (JsNum.num 0) (jsMin (JsNum.num 1920) (jsNumOr cue.x 100))
  , y := jsMax (JsNum.num 0) (jsMin (JsNum.num 1080) (jsNumOr cue.y 100))
  , width := cue.width
  , height := cue.height
  , text := cue.text
  , color := some (jsStrOr cue.color "#10B981") }

/-- `AIVisionService.analyzeWithOpenAI`, viewed from the response side.
The success path validates `result.status`/`result.message` and builds
the clamped `ScreenAnalysis`.  On a `SyntaxError` from `JSON.parse`
the catch block evaluates `response?.choices?.[0]?.message?.content`,
but `response` is a `const` declared inside the `try` block and is not
in scope in the catch; evaluating the identifier raises a
`ReferenceError`, so the secondary JSON-extraction branch never
returns a value and the function throws.  Every other caught error is
rethrown by the final `throw error`. -/
def analyzeWithOpenAI (currentStepIndex : Nat) (env : RemoteEnv) :
    Except JsError ScreenAnalysis :=
  match env with
  | RemoteEnv.requestFailed => Except.error JsError.requestFailed
  | RemoteEnv.noContent => Except.error JsError.noContent
  | RemoteEnv.parseFailure => Except.error JsError.referenceErr
  | RemoteEnv.parsed r =>
    match r.status, r.message with
    | some st, some msg =>
      Except.ok
        { currentStep := currentStepIndex
        , confidence := jsMax (JsNum.num 0) (jsMin (JsNum.num 1) (jsNumOr r.confidence (1/2)))
        , suggestions := r.suggestions.getD []
        , visualCues := (r.visualCues.getD []).map clampCue
        , status := st
        , message := msg }
    | _, _ => Except.error JsError.invalidStructure

/-- The seven `Math.random()` draws made by one `simulateAIAnalysis`
call: six cue coordinates (the scenario array is built before one
scenario is selected) and the scenario selector. -/
structure SimRands where
  r1 : ℚ
  r2 : ℚ
  r3 : ℚ
  r4 : ℚ
  r5 : ℚ
  r6 : ℚ
  rSel : ℚ
deriving DecidableEq

/-- One canned scenario of the simulated path (everything of a
`ScreenAnalysis` except `currentStep`, which is spread in afterwards). -/
structure SimScenario where
  status : AnalysisStatus
  confidence : JsNum
  message : String
  suggestions : List String
  visualCues : List VisualCue
deriving DecidableEq

/-- The three canned scenario templates of `simulateAIAnalysis`, with
their randomized cue coordinates. -/
def simScenarios (r : SimRands) : List SimScenario :=
  [ { status := AnalysisStatus.onTrack
    , confidence := JsNum.num (85/100)
    , message := "Perfect! You\x27re following the instructions correctly."
    , suggestions := ["Continue with the current step", "You\x27re doing great!"]
    , visualCues := [{ type := CueType.arrow, x := JsNum.num (r.r1 * 800 + 100),
                       y := JsNum.num (r.r2 * 600 + 100),
                       width := none, height := none, text := some "Click here next",
                       color := some "#10B981" }] }
  , { status := AnalysisStatus.offTrack
    , confidence := JsNum.num (65/100)
    , message := "It looks like you might be on the wrong page or element."
    , suggestions := [ "Try looking for the element mentioned in the instruction"
                     , "Make sure you\x27re on the correct page"
                     , "Check if any popups or dialogs are blocking the view"]
    , visualCues := [{ type := CueType.highlight, x := JsNum.num (r.r3 * 600 + 200),
                       y := JsNum.num (r.r4 * 400 + 150),
                       width := some 200, height := some 50, text := some "Look for this area",
                       color := some "#F59E0B" }] }
  , { status := AnalysisStatus.completed
    , confidence := JsNum.num (95/100)
    , message := "Excellent! This step appears to be completed."
    , suggestions := ["Ready to move to the next step"]
    , visualCues := [{ type := CueType.circle, x := JsNum.num (r.r5 * 700 + 150),
                       y := JsNum.num (r.r6 * 500 + 100),
                       width := none, height := none, text := some "✓ Completed",
                       color := some "#10B981" }] } ]

/-- Placeholder for `scenarios[i]` at an out-of-range index.  With the
selector drawn from `[0,1)` the index `Math.floor(r * 3)` is always in
range, so this value is never produced. -/
def simScenarioJunk : SimScenario :=
  { status := AnalysisStatus.error, confidence := JsNum.num 0, message := ""
  , suggestions := [], visualCues := [] }

/-- `AIVisionService.simulateAIAnalysis`: pick
`scenarios[Math.floor(Math.random() * scenarios.length)]` and spread
it over `{ currentStep: currentStepIndex }`. -/
def simulateAIAnalysis (screenImageData : String) (instructions : List String)
    (currentStepIndex : Nat) (r : SimRands) : ScreenAnalysis :=
  let scenario := (simScenarios r).getD (⌊r.rSel * 3⌋).toNat simScenarioJunk
  { currentStep := currentStepIndex
  , confidence := scenario.confidence
  , suggestions := scenario.suggestions
  , visualCues := scenario.visualCues
  , status := scenario.status
  , message := scenario.message }

/-- The service's two private mutable fields. -/
structure ServiceState where
  isAnalyzing : Bool
  analysisInterval : Option Nat
deriving DecidableEq

/-- `AIVisionService.isAnalysisRunning`. -/
def isAnalysisRunning (st : ServiceState) : Bool := st.isAnalyzing

/-- Whether an `Except` result models a thrown JavaScript error. -/
def isErrorResult {ε α : Type} : Except ε α → Bool
  | Except.error _ => true
  | Except.ok _ => false

/-- `AIVisionService.analyzeScreen` as a state transition: reject when
`isAnalyzing` is already set; otherwise set the flag, take the
simulated path when the API key is missing or the sentinel value, take
the remote path otherwise falling back to the simulated path when it
throws, and finally clear the flag (`finally` block). -/
def analyzeScreen (st : ServiceState) (hasValidKey : Bool) (env : RemoteEnv)
    (screenImageData : String) (instructions : List String) (currentStepIndex : Nat)
    (r : SimRands) : Except JsError ScreenAnalysis × ServiceState :=
  if st.isAnalyzing then
    (Except.error JsError.analysisInProgress, st)
  else
    let res : Except JsError ScreenAnalysis :=
      if !hasValidKey then
        Except.ok (simulateAIAnalysis screenImageData instructions currentStepIndex r)
      else
        match analyzeWithOpenAI currentStepIndex env with
        | Except.ok a => Except.ok a
        | Except.error _ =>
          Except.ok (simulateAIAnalysis screenImageData instructions currentStepIndex r)
    (res, { st with isAnalyzing := false })

/-- The browser's interval-timer registry, restricted to the timers
created by this service: a fresh-id counter and the list of ids whose
interval is still scheduled. -/
structure TimerSys where
  nextId : Nat
  active : List Nat
deriving DecidableEq

/-- `clearInterval(id)`. -/
def clearIntervalFn (n : Nat) (t : TimerSys) : TimerSys :=
  { t with active := t.active.erase n }

/-- `setInterval(...)`: registers a new timer and returns its handle. -/
def setIntervalFn (t : TimerSys) : Nat × TimerSys :=
  (t.nextId, { nextId := t.nextId + 1, active := t.active ++ [t.nextId] })

/-- `AIVisionService.stopContinuousAnalysis`. -/
def stopContinuousAnalysis (st : ServiceState) (t : TimerSys) :
    ServiceState × TimerSys :=
  match st.analysisInterval with
  | some n => ({ st with analysisInterval := none }, clearIntervalFn n t)
  | none => (st, t)

/-- `AIVisionService.startContinuousAnalysis`: first stop any prior
polling timer, then register a new one and remember its handle. -/
def startContinuousAnalysis (st : ServiceState) (t : TimerSys) :
    ServiceState × TimerSys :=
  let p := stopContinuousAnalysis st t
  let q := setIntervalFn p.2
  ({ p.1 with analysisInterval := some q.1 }, q.2)

/-- The service's timer bookkeeping is consistent: the active timers it
owns are exactly the one recorded in `analysisInterval`, if any. -/
def TimerWF (st : ServiceState) (t : TimerSys) : Prop :=
  t.active = st.analysisInterval.toList

/-- All-zero random draws, for concrete instantiations. -/
def simRandsZero : SimRands := ⟨0, 0, 0, 0, 0, 0, 0⟩

/-! ### Claims about the vision service -/

/-- Claim C2: `analyzeScreen` throws exactly when another call is
already in flight (`isAnalyzing` set), and whenever the guard is free,
any failure of the remote path (network error, missing content, parse
failure, invalid structure) is caught and the caller receives the
simulated analysis instead. -/
theorem analyzeScreen_error_iff_busy (st : ServiceState) (key : Bool)
    (env : RemoteEnv) (sd : String) (ins : List String) (idx : Nat) (r : SimRands) :
    (isErrorResult (analyzeScreen st key env sd ins idx r).1 = true ↔ st.isAnalyzing = true)
    ∧ (st.isAnalyzing = false → ∀ e, analyzeWithOpenAI idx env = Except.error e →
        (analyzeScreen st key env sd ins idx r).1
          = Except.ok (simulateAIAnalysis sd ins idx r)) := by
  constructor
  · cases hb : st.isAnalyzing
    · simp only [analyzeScreen, hb, Bool.false_eq_true, if_false]
      constructor
      · intro hcontra
        exfalso
        cases hk : key
        · simp [hk, isErrorResult] at hcontra
        · cases hoa : analyzeWithOpenAI idx env <;>
            simp [hk, hoa, isErrorResult] at hcontra
      · intro hcontra
        exact absurd hcontra (by simp)
    · simp [analyzeScreen, hb, isErrorResult]
  · intro hb e he
    cases hk : key
    · simp [analyzeScreen, hb, hk]
    · simp [analyzeScreen, hb, hk, he]

/-- Claim C2 witness: with the guard free and the remote request
failing, the caller receives the simulated analysis. -/
theorem analyzeScreen_error_iff_busy_witness :
    (analyzeScreen ⟨false, none⟩ true RemoteEnv.requestFailed "img" [] 0 simRandsZero).1
      = Except.ok (simulateAIAnalysis "img" [] 0 simRandsZero) :=
  (analyzeScreen_error_iff_busy ⟨false, none⟩ true RemoteEnv.requestFailed
    "img" [] 0 simRandsZero).2 rfl JsError.requestFailed rfl

/-- The clamp `Math.max(0, Math.min(hi, v))` yields `NaN` when the
coerced value is `NaN`, and otherwise a number in `[0, hi]` (the
infinities are pulled to the endpoints). -/
theorem jsClamp_nan_or_inRange (hi : ℚ) (hhi : 0 ≤ hi) (v : JsNum) :
    jsMax (JsNum.num 0) (jsMin (JsNum.num hi) v) = JsNum.nan
    ∨ JsNum.inRange (jsMax (JsNum.num 0) (jsMin (JsNum.num hi) v)) 0 hi := by
  cases v with
  | nan => exact Or.inl rfl
  | posInf =>
    exact Or.inr (show (0:ℚ) ≤ max 0 hi ∧ max 0 hi ≤ hi from
      ⟨le_max_left 0 hi, max_le hhi le_rfl⟩)
  | negInf =>
    exact Or.inr (show (0:ℚ) ≤ 0 ∧ (0:ℚ) ≤ hi from ⟨le_rfl, hhi⟩)
  | num q =>
    exact Or.inr (show (0:ℚ) ≤ max 0 (min hi q) ∧ max 0 (min hi q) ≤ hi from
      ⟨le_max_left _ _, max_le hhi (min_le_left hi q)⟩)

/-- A parsed reply carrying truthy non-numeric JSON values — the
string `"very high"` as `confidence` and `"wide"` as the cue's `x` —
which pass the `status`/`message` validation and coerce to `NaN`
inside `Math.min`/`Math.max`, for the C3 counterexample. -/
def nanRawResult : RawResult :=
  { status := some AnalysisStatus.onTrack
  , message := some "hi"
  , confidence := some { truthy := true, toNumber := JsNum.nan }
  , suggestions := none
  , visualCues := some [{ type := none
                        , x := some { truthy := true, toNumber := JsNum.nan }
                        , y := some { truthy := true, toNumber := JsNum.num 50 }
                        , width := none, height := none, text := none, color := none }] }

/-- Claim C3 counterexample: on the reply
`{"status":"on_track","message":"hi","confidence":"very high",
"visualCues":[{"x":"wide","y":50}]}` the parser returns a
`ScreenAnalysis` whose confidence and cue `x` are `NaN` — outside
`[0,1]` and `[0,1920]` — because `Math.max(0, Math.min(hi, v))`
propagates the `NaN` that the truthy non-numeric values coerce to,
refuting "the confidence field lies in [0,1] and every cue's x lies in
[0,1920]". -/
theorem analyzeWithOpenAI_nan_unclamped :
    analyzeWithOpenAI 0 (RemoteEnv.parsed nanRawResult)
      = Except.ok
          { currentStep := 0
          , confidence := JsNum.nan
          , suggestions := []
          , visualCues := [{ type := CueType.arrow, x := JsNum.nan, y := JsNum.num 50
                           , width := none, height := none, text := none
                           , color := some "#10B981" }]
          , status := AnalysisStatus.onTrack
          , message := "hi" }
    ∧ ¬ JsNum.inRange JsNum.nan 0 1
    ∧ ¬ JsNum.inRange JsNum.nan 0 1920 :=
  ⟨rfl, fun h => h, fun h => h⟩

/-- Claim C3 (amended): every `ScreenAnalysis` actually returned by
`analyzeWithOpenAI` passes through the clamping of the main parse
path, so its confidence is either `NaN` or lies in `[0,1]`, and every
cue's `x` is either `NaN` or in `[0,1920]` and its `y` either `NaN` or
in `[0,1080]`; `NaN` arises exactly when a truthy non-numeric JSON
value sits in the slot, since `Math.min`/`Math.max` propagate its
ToNumber coercion.  (The secondary JSON-extraction recovery branch
would skip the clamps entirely, but it can never return: its guard
evaluates the out-of-scope identifier `response` and raises.) -/
theorem analyzeWithOpenAI_clamped_or_nan (idx : Nat) (env : RemoteEnv)
    (a : ScreenAnalysis) (h : analyzeWithOpenAI idx env = Except.ok a) :
    (a.confidence = JsNum.nan ∨ JsNum.inRange a.confidence 0 1)
    ∧ ∀ c ∈ a.visualCues,
        (c.x = JsNum.nan ∨ JsNum.inRange c.x 0 1920)
        ∧ (c.y = JsNum.nan ∨ JsNum.inRange c.y 0 1080) := by
  cases env with
  | requestFailed => simp [analyzeWithOpenAI] at h
  | noContent => simp [analyzeWithOpenAI] at h
  | parseFailure => simp [analyzeWithOpenAI] at h
  | parsed r =>
    rcases hst : r.status with _ | st <;> rcases hm : r.message with _ | msg <;>
      simp [analyzeWithOpenAI, hst, hm] at h
    subst h
    refine ⟨jsClamp_nan_or_inRange 1 (by norm_num) _, ?_⟩
    intro c hc
    simp only [List.mem_map] at hc
    obtain ⟨cu, _, hcu⟩ := hc
    subst hcu
    exact ⟨jsClamp_nan_or_inRange 1920 (by norm_num) _,
           jsClamp_nan_or_inRange 1080 (by norm_num) _⟩

/-- A parsed reply with out-of-range numeric values, for the C3
witness. -/
def sampleRawResult : RawResult :=
  { status := some AnalysisStatus.onTrack
  , message := some "ok"
  , confidence := some { truthy := true, toNumber := JsNum.num 2 }
  , suggestions := none
  , visualCues := some [{ type := none
                        , x := some { truthy := true, toNumber := JsNum.num 5000 }
                        , y := some { truthy := true, toNumber := JsNum.num (-50) }
                        , width := none, height := none, text := none, color := none }] }

/-- Claim C3 witness: the amended theorem instantiated on a reply whose
numeric confidence and cue coordinates all lie outside their ranges
and come back clamped. -/
theorem analyzeWithOpenAI_clamped_or_nan_witness :
    ((({ currentStep := 0, confidence := JsNum.num 1, suggestions := []
       , visualCues := [{ type := CueType.arrow, x := JsNum.num 1920, y := JsNum.num 0
                        , width := none, height := none, text := none
                        , color := some "#10B981" }]
       , status := AnalysisStatus.onTrack, message := "ok" } : ScreenAnalysis)).confidence
        = JsNum.nan
      ∨ JsNum.inRange
          (({ currentStep := 0, confidence := JsNum.num 1, suggestions := []
            , visualCues := [{ type := CueType.arrow, x := JsNum.num 1920, y := JsNum.num 0
                             , width := none, height := none, text := none
                             , color := some "#10B981" }]
            , status := AnalysisStatus.onTrack, message := "ok" } : ScreenAnalysis)).confidence 0 1)
    ∧ ∀ c ∈ (({ currentStep := 0, confidence := JsNum.num 1, suggestions := []
              , visualCues := [{ type := CueType.arrow, x := JsNum.num 1920, y := JsNum.num 0
                               , width := none, height := none, text := none
                               , color := some "#10B981" }]
              , status := AnalysisStatus.onTrack, message := "ok" } : ScreenAnalysis)).visualCues,
        (c.x = JsNum.nan ∨ JsNum.inRange c.x 0 1920)
        ∧ (c.y = JsNum.nan ∨ JsNum.inRange c.y 0 1080) :=
  analyzeWithOpenAI_clamped_or_nan 0 (RemoteEnv.parsed sampleRawResult) _ rfl

/-- Claim C6: for any inputs and any random draws with the scenario
selector in `[0,1)`, the simulated path returns one of the three
canned statuses — never `error` — and a nonempty cue list. -/
theorem simulateAIAnalysis_status (sd : String) (ins : List String) (idx : Nat)
    (r : SimRands) (h0 : 0 ≤ r.rSel) (h1 : r.rSel < 1) :
    ((simulateAIAnalysis sd ins idx r).status = AnalysisStatus.onTrack
      ∨ (simulateAIAnalysis sd ins idx r).status = AnalysisStatus.offTrack
      ∨ (simulateAIAnalysis sd ins idx r).status = AnalysisStatus.completed)
    ∧ (simulateAIAnalysis sd ins idx r).status ≠ AnalysisStatus.error
    ∧ (simulateAIAnalysis sd ins idx r).visualCues ≠ [] := by
  have hmul0 : (0:ℚ) ≤ r.rSel * 3 := mul_nonneg h0 (by norm_num)
  have hmul3 : r.rSel * 3 < 3 := by linarith
  have hf0 : (0:ℤ) ≤ ⌊r.rSel * 3⌋ := Int.floor_nonneg.mpr hmul0
  have hf3 : ⌊r.rSel * 3⌋ < 3 := Int.floor_lt.mpr (by push_cast; exact hmul3)
  have hk : (⌊r.rSel * 3⌋).toNat = 0 ∨ (⌊r.rSel * 3⌋).toNat = 1
      ∨ (⌊r.rSel * 3⌋).toNat = 2 := by omega
  rcases hk with hk | hk | hk <;>
    simp [simulateAIAnalysis, simScenarios, hk]

/-- Claim C6 witness: the simulated-path theorem instantiated at
all-zero random draws. -/
theorem simulateAIAnalysis_status_witness :
    ((simulateAIAnalysis "" [] 0 simRandsZero).status = AnalysisStatus.onTrack
      ∨ (simulateAIAnalysis "" [] 0 simRandsZero).status = AnalysisStatus.offTrack
      ∨ (simulateAIAnalysis "" [] 0 simRandsZero).status = AnalysisStatus.completed)
    ∧ (simulateAIAnalysis "" [] 0 simRandsZero).status ≠ AnalysisStatus.error
    ∧ (simulateAIAnalysis "" [] 0 simRandsZero).visualCues ≠ [] :=
  simulateAIAnalysis_status "" [] 0 simRandsZero (le_refl 0) zero_lt_one

/-- Claim C10: the mutual-exclusion guard is always released — a call
that acquires it leaves `isAnalysisRunning` false afterwards — while a
call rejected by the guard throws without touching the state, so it
does not clear the in-flight call's guard. -/
theorem analyzeScreen_guard_released (st : ServiceState) (key : Bool)
    (env : RemoteEnv) (sd : String) (ins : List String) (idx : Nat) (r : SimRands) :
    (st.isAnalyzing = false →
      isAnalysisRunning (analyzeScreen st key env sd ins idx r).2 = false)
    ∧ (st.isAnalyzing = true →
        (analyzeScreen st key env sd ins idx r).2 = st
        ∧ isErrorResult (analyzeScreen st key env sd ins idx r).1 = true) := by
  constructor
  · intro hb
    simp [analyzeScreen, hb, isAnalysisRunning]
  · intro hb
    simp [analyzeScreen, hb, isErrorResult]

/-- Claim C10 witness: a rejected call leaves the busy state intact and
surfaces the error. -/
theorem analyzeScreen_guard_released_witness :
    (analyzeScreen ⟨true, none⟩ true RemoteEnv.requestFailed "img" [] 0 simRandsZero).2
      = (⟨true, none⟩ : ServiceState)
    ∧ isErrorResult
        (analyzeScreen ⟨true, none⟩ true RemoteEnv.requestFailed "img" [] 0 simRandsZero).1
      = true :=
  (analyzeScreen_guard_released ⟨true, none⟩ true RemoteEnv.requestFailed
    "img" [] 0 simRandsZero).2 rfl

/-- Claim C5: starting continuous analysis twice leaves exactly one
active polling timer — the second start cancels the timer created by
the first — and a subsequent stop leaves none. -/
theorem startContinuousAnalysis_single_timer (st : ServiceState) (t : TimerSys)
    (h : TimerWF st t) :
    ((startContinuousAnalysis (startContinuousAnalysis st t).1
        (startContinuousAnalysis st t).2).2.active.length = 1)
    ∧ (∀ a, (startContinuousAnalysis st t).1.analysisInterval = some a →
        a ∉ (startContinuousAnalysis (startContinuousAnalysis st t).1
              (startContinuousAnalysis st t).2).2.active)
    ∧ ((stopContinuousAnalysis
          (startContinuousAnalysis (startContinuousAnalysis st t).1
            (startContinuousAnalysis st t).2).1
          (startContinuousAnalysis (startContinuousAnalysis st t).1
            (startContinuousAnalysis st t).2).2).2.active = []) := by
  obtain ⟨b, oi⟩ := st
  obtain ⟨nid, act⟩ := t
  cases oi with
  | none =>
    have hact : act = [] := h
    subst hact
    refine ⟨?_, ?_, ?_⟩ <;>
      simp [startContinuousAnalysis, stopContinuousAnalysis, setIntervalFn,
        clearIntervalFn, List.erase_cons_head]
  | some m =>
    have hact : act = [m] := h
    subst hact
    refine ⟨?_, ?_, ?_⟩ <;>
      simp [startContinuousAnalysis, stopContinuousAnalysis, setIntervalFn,
        clearIntervalFn, List.erase_cons_head]

/-- Claim C5 witness: the single-timer theorem instantiated on a fresh
service and an empty timer registry. -/
theorem startContinuousAnalysis_single_timer_witness :
    ((startContinuousAnalysis
        (startContinuousAnalysis (⟨false, none⟩ : ServiceState) (⟨0, []⟩ : TimerSys)).1
        (startContinuousAnalysis (⟨false, none⟩ : ServiceState) (⟨0, []⟩ : TimerSys)).2).2.active.length = 1)
    ∧ (∀ a, (startContinuousAnalysis (⟨false, none⟩ : ServiceState)
          (⟨0, []⟩ : TimerSys)).1.analysisInterval = some a →
        a ∉ (startContinuousAnalysis
              (startContinuousAnalysis (⟨false, none⟩ : ServiceState) (⟨0, []⟩ : TimerSys)).1
              (startContinuousAnalysis (⟨false, none⟩ : ServiceState) (⟨0, []⟩ : TimerSys)).2).2.active)
    ∧ ((stopContinuousAnalysis
          (startContinuousAnalysis
            (startContinuousAnalysis (⟨false, none⟩ : ServiceState) (⟨0, []⟩ : TimerSys)).1
            (startContinuousAnalysis (⟨false, none⟩ : ServiceState) (⟨0, []⟩ : TimerSys)).2).1
          (startContinuousAnalysis
            (startContinuousAnalysis (⟨false, none⟩ : ServiceState) (⟨0, []⟩ : TimerSys)).1
            (startContinuousAnalysis (⟨false, none⟩ : ServiceState) (⟨0, []⟩ : TimerSys)).2).2).2.active = []) :=
  startContinuousAnalysis_single_timer ⟨false, none⟩ ⟨0, []⟩ rfl

/-! ## The task viewer (TaskViewer.tsx)

State: the `currentStep` index, the play toggle, and the current
task's step list (whose elements `handleStepComplete` mutates in
place).  The delayed `setCurrentStep(currentStep + 1)` scheduled by
`handleStepComplete` appears as the separate `autoAdvance` operation;
it is scheduled only when a next step exists. -/

/-- One step of a task, as the task viewer manipulates it. -/
structure TVStep where
  id : Nat
  title : String
  description : String
  completed : Bool
deriving DecidableEq

/-- Placeholder element for out-of-range indexing; unreachable while
`currentStep` stays inside the step list, which the rendering already
indexes. -/
def tvStepJunk : TVStep := { id := 0, title := "", description := "", completed := false }

/-- The task viewer's component state. -/
structure TVState where
  currentStep : Nat
  isPlaying : Bool
  steps : List TVStep
deriving DecidableEq

/-- The task viewer's operations: the Previous/Next buttons, clicking a
step in the overview, `handleStepComplete`, its delayed auto-advance,
and the play/pause toggle. -/
inductive TVOp where
  | nextStep
  | prevStep
  | selectStep (i : Nat)
  | stepComplete
  | autoAdvance
  | togglePlay
deriving DecidableEq

/-- One task-viewer event handler applied to the component state. -/
def applyTVOp (op : TVOp) (t : TVState) : TVState :=
  match op with
  | TVOp.nextStep =>
    if t.currentStep < t.steps.length - 1 then
      { t with currentStep := t.currentStep + 1 }
    else t
  | TVOp.prevStep =>
    if 0 < t.currentStep then { t with currentStep := t.currentStep - 1 } else t
  | TVOp.selectStep i => { t with currentStep := i }
  | TVOp.stepComplete =>
    let updated := { t.steps.getD t.currentStep tvStepJunk with completed := true }
    { t with steps := t.steps.set t.currentStep updated }
  | TVOp.autoAdvance =>
    if t.currentStep < t.steps.length - 1 then
      { t with currentStep := t.currentStep + 1 }
    else t
  | TVOp.togglePlay => { t with isPlaying := !t.isPlaying }

/-! ## The floating guide popup (AIGuidePopup.tsx) -/

/-- The `status` field of the popup's persisted state. -/
inductive GuideStatus where
  | active
  | paused
  | completed
  | dismissed
deriving DecidableEq

/-- One step shown by the popup. -/
structure GuideStep where
  id : Nat
  title : String
  description : String
  completed : Bool
deriving DecidableEq

/-- Placeholder for `steps[guideState.currentStep]` at an out-of-range
index; unreachable while the index stays inside the step list. -/
def guideStepJunk : GuideStep := { id := 0, title := "", description := "", completed := false }

/-- The popup's persisted state (interface `GuideState`). -/
structure GuideState where
  isVisible : Bool
  currentStep : Nat
  isMinimized : Bool
  isPlaying : Bool
  posX : Int
  posY : Int
  completedSteps : List Nat
  status : GuideStatus
deriving DecidableEq

/-- The eight built-in steps of the popup. -/
def defaultSteps : List GuideStep :=
  [ { id := 1, title := "Welcome to AI Guide"
    , description := "This popup will guide you through tasks step by step. You can drag it around and it will persist across page reloads."
    , completed := false }
  , { id := 2, title := "Navigation Controls"
    , description := "Use the Previous/Next buttons to navigate between steps, or click the step numbers at the bottom."
    , completed := false }
  , { id := 3, title := "Auto-Play Feature"
    , description := "Click the Play button to automatically advance through steps every 10 seconds."
    , completed := false }
  , { id := 4, title := "Minimize & Maximize"
    , description := "Click the minimize button to collapse the popup while keeping it accessible."
    , completed := false }
  , { id := 5, title := "Persistent State"
    , description := "Your progress is automatically saved. Refresh the page and this popup will remember where you left off."
    , completed := false }
  , { id := 6, title := "Complete Steps"
    , description := "Mark steps as complete using the Complete button. Completed steps are saved automatically."
    , completed := false }
  , { id := 7, title := "Drag to Reposition"
    , description := "Grab the header area to drag this popup to any position on your screen."
    , completed := false }
  , { id := 8, title := "Finish Guide"
    , description := "When you\x27re done, click the Done button to permanently dismiss this guide."
    , completed := false } ]

/-- The popup's `useState` initializer.  `statusVal` is the raw value
stored under the dismissal key `aiGuideStatus`; `saved` is the state
parsed from the step-state key `aiGuideState` (`none` when the key is
absent or `JSON.parse` fails).  The dismissal key is checked first:
when it holds `"done"` the popup starts hidden and dismissed no matter
what the other key holds. -/
def initGuideState (statusVal : Option String) (saved : Option GuideState)
    (autoStart : Bool) (px py : Int) : GuideState :=
  if statusVal = some "done" then
    { isVisible := false, currentStep := 0, isMinimized := false, isPlaying := false
    , posX := px, posY := py, completedSteps := [], status := GuideStatus.dismissed }
  else
    match saved with
    | some parsed => { parsed with isVisible := true, isPlaying := false }
    | none =>
      { isVisible := autoStart, currentStep := 0, isMinimized := false, isPlaying := false
      , posX := px, posY := py, completedSteps := [], status := GuideStatus.active }

/-- The render guard
`if (!guideState.isVisible || guideState.status === 'dismissed' || !portalContainer) return null`. -/
def rendersNothing (s : GuideState) (hasPortal : Bool) : Bool :=
  !s.isVisible || decide (s.status = GuideStatus.dismissed) || !hasPortal

/-- The id of the step currently shown
(`steps[guideState.currentStep].id`). -/
def currentStepId (steps : List GuideStep) (s : GuideState) : Nat :=
  (steps.getD s.currentStep guideStepJunk).id

/-- The popup's event handlers and timers. -/
inductive GuideOp where
  | prev
  | next
  | stepClick (i : Nat)
  | complete
  | playPause
  | minimize
  | restart
  | done
  | autoTick
  | dragStop (x y : Int)
deriving DecidableEq

/-- One popup operation applied to the state (`handlePrevious`,
`handleNext`, `handleStepClick`, `handleComplete`, `handlePlayPause`,
`handleMinimize`, `handleRestart`, `handleDone`, the 10-second
auto-play interval body, `handleDragStop`). -/
def applyGuideOp (steps : List GuideStep) (op : GuideOp) (s : GuideState) : GuideState :=
  match op with
  | GuideOp.prev =>
    if 0 < s.currentStep then
      { s with currentStep := s.currentStep - 1, isPlaying := false }
    else s
  | GuideOp.next =>
    if s.currentStep < steps.length - 1 then
      { s with currentStep := s.currentStep + 1, isPlaying := false }
    else s
  | GuideOp.stepClick i => { s with currentStep := i, isPlaying := false }
  | GuideOp.complete =>
    { s with completedSteps :=
        if currentStepId steps s ∈ s.completedSteps then s.completedSteps
        else s.completedSteps ++ [currentStepId steps s] }
  | GuideOp.playPause => { s with isPlaying := !s.isPlaying }
  | GuideOp.minimize => { s with isMinimized := !s.isMinimized, isPlaying := false }
  | GuideOp.restart =>
    { s with currentStep := 0, completedSteps := [], isPlaying := false,
             status := GuideStatus.active }
  | GuideOp.done => { s with isVisible := false, status := GuideStatus.dismissed }
  | GuideOp.autoTick =>
    if s.currentStep < steps.length - 1 then
      { s with currentStep := s.currentStep + 1 }
    else { s with isPlaying := false }
  | GuideOp.dragStop x y => { s with posX := x, posY := y }

/-- The popup states reachable across sessions: a mount reads storage
(either nothing or a previously persisted — hence reachable — state,
since the persistence effect writes back every state change), and
within a session the event handlers fire in any order. -/
inductive GuideReachable (steps : List GuideStep) : GuideState → Prop where
  | mount (statusVal : Option String) (autoStart : Bool) (px py : Int) :
      GuideReachable steps (initGuideState statusVal none autoStart px py)
  | remount (statusVal : Option String) (autoStart : Bool) (px py : Int)
      {s : GuideState} (hs : GuideReachable steps s) :
      GuideReachable steps (initGuideState statusVal (some s) autoStart px py)
  | step (op : GuideOp) {s : GuideState} (hs : GuideReachable steps s) :
      GuideReachable steps (applyGuideOp steps op s)

/-! ### Claims about the step-tracking components -/

theorem nodup_append_singleton {α : Type} (l : List α) (a : α)
    (hl : l.Nodup) (ha : a ∉ l) : (l ++ [a]).Nodup := by
  rw [List.nodup_append]
  exact ⟨hl, List.nodup_singleton a, by simp [List.disjoint_singleton, ha]⟩

theorem completed_getD_set (l : List TVStep) (n i : Nat) (x : TVStep)
    (hx : x.completed = true) (hi : (l.getD i tvStepJunk).completed = true) :
    ((l.set n x).getD i tvStepJunk).completed = true := by
  induction l generalizing n i with
  | nil => simpa using hi
  | cons a rest ih =>
    cases n with
    | zero =>
      cases i with
      | zero => simpa using hx
      | succ j => simpa using hi
    | succ m =>
      cases i with
      | zero => simpa using hi
      | succ j =>
        simp only [List.set_cons_succ, List.getD_cons_succ] at hi ⊢
        exact ih m j hi

theorem guideReachable_nodup (steps : List GuideStep) (s : GuideState)
    (h : GuideReachable steps s) : s.completedSteps.Nodup := by
  induction h with
  | mount sv a px py =>
    by_cases hsv : sv = some "done" <;> simp [initGuideState, hsv]
  | remount sv a px py hs ih =>
    by_cases hsv : sv = some "done" <;> simp [initGuideState, hsv]
    exact ih
  | step op hs ih =>
    cases op with
    | complete =>
      simp only [applyGuideOp]
      split
      · exact ih
      · next hmem => exact nodup_append_singleton _ _ ih hmem
    | restart => simp [applyGuideOp]
    | prev =>
      simp only [applyGuideOp]
      split <;> exact ih
    | next =>
      simp only [applyGuideOp]
      split <;> exact ih
    | stepClick i => exact ih
    | playPause => exact ih
    | minimize => exact ih
    | done => exact ih
    | autoTick =>
      simp only [applyGuideOp]
      split <;> exact ih
    | dragStop x y => exact ih

/-- Claim C4 counterexample: after completing the popup's first step
its id is in `completedSteps`, but `handleRestart` resets
`completedSteps` to the empty list — restart removes completed marks,
so completion is not monotonic across every operation. -/
theorem handleRestart_uncompletes :
    1 ∈ (applyGuideOp defaultSteps GuideOp.complete
          (initGuideState none none true 20 100)).completedSteps
    ∧ (applyGuideOp defaultSteps GuideOp.restart
        (applyGuideOp defaultSteps GuideOp.complete
          (initGuideState none none true 20 100))).completedSteps = [] := by
  decide

/-- Claim C4 (amended): step completion is monotonic under every
operation except the floating guide's restart — completing,
navigating, auto-advancing, play/pause, minimize, dismiss and drag all
preserve existing completed marks in both components — while
`handleRestart` clears the popup's `completedSteps` entirely. -/
theorem completion_monotone_except_restart :
    (∀ (steps : List GuideStep) (op : GuideOp), op ≠ GuideOp.restart →
      ∀ (s : GuideState) (n : Nat), n ∈ s.completedSteps →
        n ∈ (applyGuideOp steps op s).completedSteps)
    ∧ (∀ (steps : List GuideStep) (s : GuideState),
        (applyGuideOp steps GuideOp.restart s).completedSteps = [])
    ∧ (∀ (op : TVOp) (t : TVState) (i : Nat),
        (t.steps.getD i tvStepJunk).completed = true →
          ((applyTVOp op t).steps.getD i tvStepJunk).completed = true) := by
  refine ⟨?_, ?_, ?_⟩
  · intro steps op hop s n hn
    cases op with
    | restart => exact absurd rfl hop
    | complete =>
      simp only [applyGuideOp]
      split
      · exact hn
      · exact List.mem_append_left _ hn
    | prev =>
      simp only [applyGuideOp]
      split <;> exact hn
    | next =>
      simp only [applyGuideOp]
      split <;> exact hn
    | stepClick i => exact hn
    | playPause => exact hn
    | minimize => exact hn
    | done => exact hn
    | autoTick =>
      simp only [applyGuideOp]
      split <;> exact hn
    | dragStop x y => exact hn
  · intro steps s
    rfl
  · intro op t i hi
    cases op with
    | stepComplete => exact completed_getD_set _ _ _ _ rfl hi
    | nextStep =>
      simp only [applyTVOp]
      split <;> exact hi
    | prevStep =>
      simp only [applyTVOp]
      split <;> exact hi
    | selectStep j => exact hi
    | autoAdvance =>
      simp only [applyTVOp]
      split <;> exact hi
    | togglePlay => exact hi

/-- Claim C4 witness: a completed mark survives a navigation step. -/
theorem completion_monotone_except_restart_witness :
    1 ∈ (applyGuideOp defaultSteps GuideOp.next
          (applyGuideOp defaultSteps GuideOp.complete
            (initGuideState none none true 20 100))).completedSteps :=
  completion_monotone_except_restart.1 defaultSteps GuideOp.next (by decide)
    _ 1 (by decide)

/-- Claim C8: when the dismissal key holds `"done"`, the popup
initializes hidden with status `dismissed` and renders nothing,
whatever the step-state key holds. -/
theorem dismissed_flag_renders_nothing (saved : Option GuideState) (autoStart : Bool)
    (px py : Int) (hasPortal : Bool) :
    (initGuideState (some "done") saved autoStart px py).isVisible = false
    ∧ (initGuideState (some "done") saved autoStart px py).status = GuideStatus.dismissed
    ∧ rendersNothing (initGuideState (some "done") saved autoStart px py) hasPortal = true := by
  refine ⟨?_, ?_, ?_⟩ <;> simp [initGuideState, rendersNothing]

/-- Claim C9: in every reachable popup state `completedSteps` has
pairwise-distinct entries, and completing a step whose id is already
recorded leaves the state unchanged (`handleComplete` is idempotent on
completed steps). -/
theorem handleComplete_idem_nodup (steps : List GuideStep) (s : GuideState)
    (h : GuideReachable steps s) :
    s.completedSteps.Nodup
    ∧ (currentStepId steps s ∈ s.completedSteps →
        applyGuideOp steps GuideOp.complete s = s) := by
  refine ⟨guideReachable_nodup steps s h, ?_⟩
  intro hmem
  simp [applyGuideOp, hmem]

/-- Claim C9 witness: the idempotence-and-distinctness theorem
instantiated on the state reached by completing the first default
step once. -/
theorem handleComplete_idem_nodup_witness :
    (applyGuideOp defaultSteps GuideOp.complete
      (initGuideState none none true 20 100)).completedSteps.Nodup
    ∧ (currentStepId defaultSteps
        (applyGuideOp defaultSteps GuideOp.complete
          (initGuideState none none true 20 100))
        ∈ (applyGuideOp defaultSteps GuideOp.complete
            (initGuideState none none true 20 100)).completedSteps →
        applyGuideOp defaultSteps GuideOp.complete
          (applyGuideOp defaultSteps GuideOp.complete
            (initGuideState none none true 20 100))
          = applyGuideOp defaultSteps GuideOp.complete
              (initGuideState none none true 20 100)) :=
  handleComplete_idem_nodup defaultSteps _
    (GuideReachable.step GuideOp.complete (GuideReachable.mount none true 20 100))
